import Mathlib

/-!
Shallow embedding of `src/stereo_camera_ffplay_flexible.py` (a stereo-camera
capture / record / display program) and proofs about its behaviour.

Modelling conventions:
* Python exceptions are modelled by `Except PyErr` (or a `× Option PyErr`
  component where a raised exception must leave earlier field mutations
  visible).
* External collaborators (the Picamera2 driver, the cv2 codec backend, the
  ffplay viewer) are modelled by environment parameters: whether a camera
  opens, whether a `cv2.VideoWriter` opens, which frames a capture yields.
* A frame (a numpy `(h, w, 3)` uint8 array) is a list of rows, each row a
  list of 3-channel pixels.
-/

namespace StereoApp

/-- Exceptions raised by the program or the libraries it calls, by Python
class: `valueError` (numpy shape mismatch), `runtimeError` (the explicit
`raise RuntimeError` in `capture_stereo`), `attributeError` (method call on
`None`), `cameraInit` (failure propagating out of `Picamera2`
construction/configuration, caught and re-raised by `StereoCamera.__init__`). -/
inductive PyErr where
  | valueError
  | runtimeError
  | attributeError
  | cameraInit
deriving Repr, DecidableEq

/-- One pixel: three interleaved 8-bit channels, in capture order RGB. -/
abbrev Pixel := Nat × Nat × Nat

/-- A frame: rows of pixels, row-major, as produced by `capture_array`. -/
abbrev Frame := List (List Pixel)

/-- A frame is rectangular of width `w`: every row has length `w`.
A real numpy array is rectangular by construction. -/
def Rectangular (f : Frame) (w : Nat) : Prop := ∀ r ∈ f, r.length = w

instance (f : Frame) (w : Nat) : Decidable (Rectangular f w) :=
  inferInstanceAs (Decidable (∀ r ∈ f, r.length = w))

/-- Pixel lookup at row `r`, column `c` (for stating pixel-level facts). -/
def pixelAt (f : Frame) (r c : Nat) : Option Pixel :=
  (f.get? r).bind fun row => row.get? c

/-- Line 160, `np.hstack((frame1, frame2))`: concatenation along axis 1.
numpy requires all axes other than the concatenation axis to agree: axis 0
(the height) must match — the channel axis matches by the `Pixel` type.
Widths are NOT checked by `np.hstack`; rows are simply appended. On an
axis-0 mismatch numpy raises `ValueError`. -/
def hstack (f1 f2 : Frame) : Except PyErr Frame :=
  if f1.length = f2.length then
    Except.ok (List.zipWith (fun a b => a ++ b) f1 f2)
  else
    Except.error PyErr.valueError

/-- Lines 163/170, `cv2.cvtColor(frame, cv2.COLOR_RGB2BGR)`: reverses the
channel order of every pixel. -/
def cvtColor_RGB2BGR (f : Frame) : Frame :=
  f.map fun row => row.map fun p => (p.2.2, p.2.1, p.1)

/-- In-bounds single-pixel update; out-of-range indices leave the frame
unchanged (only used with concrete in-range frames). -/
def setPixel (f : Frame) (r c : Nat) (p : Pixel) : Frame :=
  match f.get? r with
  | none => f
  | some row => f.set r (row.set c p)

/-- Modelled from the spec: line 167,
`cv2.putText(stitched_frame, "REC", (50, 50), FONT, 1, (0, 0, 255), 2)` —
the glyph rasterisation of the external cv2 call is abstracted as writing
the marker colour `(0, 0, 255)` at one fixed position inside the marker
region (row 40, column 60, within the extent of the text anchored at
`(50, 50)`). What matters for the claims is only that the overlay changes
pixels of the frame it is applied to, and at which point of the loop it is
applied. -/
def putTextREC (f : Frame) : Frame := setPixel f 40 60 (0, 0, 255)

/-- The environment's result of the `cv2.VideoWriter(...)` constructor at
line 101: constructing never raises; `opened` records whether the sink
actually opened (cv2's `isOpened`), which the program never consults. -/
structure VideoWriter where
  opened : Bool
deriving Repr, DecidableEq

/-- The recording-related globals of the program (`is_recording`, `out`),
plus ghost instrumentation: `opens` counts `cv2.VideoWriter` constructions,
`closes` counts `out.release()` calls. -/
structure RecState where
  is_recording : Bool
  out : Option VideoWriter
  opens : Nat
  closes : Nat
deriving Repr, DecidableEq

/-- Lines 142–143 of `main`: `out = None`, `is_recording = False`. -/
def initRecState : RecState :=
  { is_recording := false, out := none, opens := 0, closes := 0 }

/-- Lines 95–108, `toggle_recording()`. `w` is the writer the environment
returns from the `cv2.VideoWriter` constructor (never an exception). In the
stop branch the code calls `out.release()`; were `out` `None` there, Python
would raise `AttributeError` (after already clearing `is_recording`) —
modelled as an error result; that state is unreachable from `initRecState`. -/
def toggle_recording (w : VideoWriter) (s : RecState) : Except PyErr RecState :=
  if s.is_recording = false then
    Except.ok { is_recording := true, out := some w,
                opens := s.opens + 1, closes := s.closes }
  else
    match s.out with
    | some _ =>
        Except.ok { is_recording := false, out := none,
                    opens := s.opens, closes := s.closes + 1 }
    | none => Except.error PyErr.attributeError

/-- One camera handle; `started` is true between `.start()` and `.stop()`. -/
structure Cam where
  started : Bool
deriving Repr, DecidableEq

/-- The two camera fields of a `StereoCamera` instance. -/
structure CamPair where
  camera1 : Option Cam
  camera2 : Option Cam
deriving Repr, DecidableEq

/-- Lines 40–57, `init_cameras`. `cam1_ok` / `cam2_ok` say whether the
environment lets each `Picamera2` construct/configure/start succeed (on
failure the field keeps its previous value and the exception propagates).
The returned pair is (field state after the call, raised exception if any):
a raised exception does not undo earlier field assignments. -/
def init_cameras (cam1_ok cam2_ok : Bool) (s : CamPair) : CamPair × Option PyErr :=
  if cam1_ok then
    let s1 : CamPair := { s with camera1 := some { started := true } }
    if cam2_ok then
      ({ s1 with camera2 := some { started := true } }, none)
    else
      (s1, some PyErr.cameraInit)
  else
    (s, some PyErr.cameraInit)

/-- Lines 28–38, `StereoCamera.__init__`: fields start as `None`, then
`init_cameras()` runs; an exception is printed and re-raised unchanged. -/
def stereoCamera_new (cam1_ok cam2_ok : Bool) : CamPair × Option PyErr :=
  init_cameras cam1_ok cam2_ok { camera1 := none, camera2 := none }

/-- Lines 66–71, `StereoCamera.close`: `.stop()` each camera that is present.
The fields themselves are never reset to `None`. -/
def close (s : CamPair) : CamPair :=
  { camera1 := s.camera1.map fun c => { c with started := false },
    camera2 := s.camera2.map fun c => { c with started := false } }

/-- Lines 59–64, `StereoCamera.capture_stereo`: raises
`RuntimeError("Cameras not properly initialized")` when either field is
`None`; otherwise calls the external `capture_array()` on each camera,
modelled as yielding the environment-supplied frames `f1`, `f2`. -/
def capture_stereo (f1 f2 : Frame) (s : CamPair) : Except PyErr (Frame × Frame) :=
  if s.camera1.isNone || s.camera2.isNone then
    Except.error PyErr.runtimeError
  else
    Except.ok (f1, f2)

/-- Lines 158–170, the body of one capture-loop iteration, given the current
`is_recording` flag and `out` global and the captured pair. Returns the
frame written to the recording sink (if any) and the frame streamed to the
ffplay display sink. The order is that of the source: the recording write
(line 163) uses the stitched frame BEFORE `putTextREC` (line 167) mutates
it; the display write (line 170) comes after. -/
def loop_iter (is_recording : Bool) (out : Option VideoWriter) (frame1 frame2 : Frame) :
    Except PyErr (Option Frame × Frame) :=
  match hstack frame1 frame2 with
  | Except.error e => Except.error e
  | Except.ok stitched =>
      let recorded :=
        if is_recording && out.isSome then some (cvtColor_RGB2BGR stitched) else none
      let annotated := if is_recording then putTextREC stitched else stitched
      Except.ok (recorded, cvtColor_RGB2BGR annotated)

/-- Lines 122–136 and 186–187: the process exit status as a function of
whether `StereoCamera` construction succeeds. On failure `main` prints
`"Failed to initialize stereo camera"` and returns `None`; on the loop path
every exception is caught at line 172 and `main` returns after the
`finally` cleanup. The `__main__` guard calls `main()` with no `sys.exit`,
so CPython exits with status 0 on every path modelled here. -/
def mainExitCode (camera_init_ok : Bool) : Nat :=
  if camera_init_ok then 0 else 0

/-- The shared control state the keyboard listener mutates: the recording
globals and the `stop_event` flag. -/
structure CtlState where
  rstate : RecState
  stop : Bool
deriving Repr, DecidableEq

/-- CPython `str.lower` on one character; agrees with CPython on ASCII.
(No non-ASCII character has `r` or `q` as its Unicode lowercase, so the
guards below behave as in Python for every character.) -/
def pyLower (c : Char) : Char :=
  if 'A' ≤ c ∧ c ≤ 'Z' then Char.ofNat (c.toNat + 32) else c

/-- Lines 110–120, one iteration of `keyboard_input` that has read key `c`:
`key = sys.stdin.read(1).lower()`; `r` toggles recording, `q` sets the stop
event, anything else does nothing. `w` is the writer the environment would
hand a started recording. -/
def handle_key (w : VideoWriter) (c : Char) (st : CtlState) : Except PyErr CtlState :=
  let key := pyLower c
  if key = 'r' then
    match toggle_recording w st.rstate with
    | Except.ok r => Except.ok { st with rstate := r }
    | Except.error e => Except.error e
  else if key = 'q' then
    Except.ok { st with stop := true }
  else
    Except.ok st

/-- The implicit coupling of the two recording globals: the flag is set
exactly when a writer object is held. -/
def RecInv (s : RecState) : Prop := s.is_recording = s.out.isSome

/-! Helper lemmas about row-wise concatenation. -/

theorem zipWith_append_map_take :
    ∀ (f1 f2 : Frame) (w : Nat), Rectangular f1 w → f1.length = f2.length →
      (List.zipWith (fun a b => a ++ b) f1 f2).map (List.take w) = f1 := by
  intro f1
  induction f1 with
  | nil => intro f2 w _ _; simp
  | cons r t ih =>
    intro f2 w hrect hlen
    cases f2 with
    | nil => simp at hlen
    | cons r2 t2 =>
      have hr : r.length = w := hrect r (List.mem_cons_self r t)
      have ht : Rectangular t w := fun x hx => hrect x (List.mem_cons_of_mem r hx)
      have hl : t.length = t2.length := by simpa using hlen
      rw [List.zipWith_cons_cons, List.map_cons, ih t2 w ht hl, ← hr, List.take_left]

theorem zipWith_append_map_drop :
    ∀ (f1 f2 : Frame) (w : Nat), Rectangular f1 w → f1.length = f2.length →
      (List.zipWith (fun a b => a ++ b) f1 f2).map (List.drop w) = f2 := by
  intro f1
  induction f1 with
  | nil =>
    intro f2 w _ hlen
    cases f2 with
    | nil => simp
    | cons r2 t2 => simp at hlen
  | cons r t ih =>
    intro f2 w hrect hlen
    cases f2 with
    | nil => simp at hlen
    | cons r2 t2 =>
      have hr : r.length = w := hrect r (List.mem_cons_self r t)
      have ht : Rectangular t w := fun x hx => hrect x (List.mem_cons_of_mem r hx)
      have hl : t.length = t2.length := by simpa using hlen
      rw [List.zipWith_cons_cons, List.map_cons, ih t2 w ht hl, ← hr, List.drop_left]

theorem zipWith_append_rect :
    ∀ (f1 f2 : Frame) (w1 w2 : Nat), Rectangular f1 w1 → Rectangular f2 w2 →
      Rectangular (List.zipWith (fun a b => a ++ b) f1 f2) (w1 + w2) := by
  intro f1
  induction f1 with
  | nil => intro f2 w1 w2 _ _ r hr; simp at hr
  | cons r t ih =>
    intro f2 w1 w2 h1 h2
    cases f2 with
    | nil => intro x hx; simp at hx
    | cons r2 t2 =>
      intro x hx
      rw [List.zipWith_cons_cons] at hx
      rcases List.mem_cons.mp hx with hx | hx
      · subst hx
        rw [List.length_append, h1 r (List.mem_cons_self r t),
            h2 r2 (List.mem_cons_self r2 t2)]
      · exact ih t2 w1 w2 (fun y hy => h1 y (List.mem_cons_of_mem r hy))
          (fun y hy => h2 y (List.mem_cons_of_mem r2 hy)) x hx

/-- C2: for all valid equal-dimension frame pairs, `compose` (line 160,
`np.hstack`) produces a frame of exactly double the single width and
identical height, whose left half is bit-identical to input A and whose
right half is bit-identical to input B. -/
theorem compose_correct (f1 f2 : Frame) (w : Nat)
    (h1 : Rectangular f1 w) (h2 : Rectangular f2 w) (hlen : f1.length = f2.length) :
    ∃ g, hstack f1 f2 = Except.ok g ∧ g.length = f1.length ∧
      Rectangular g (2 * w) ∧
      g.map (List.take w) = f1 ∧ g.map (List.drop w) = f2 := by
  refine ⟨List.zipWith (fun a b => a ++ b) f1 f2, ?_, ?_, ?_, ?_, ?_⟩
  · simp [hstack, hlen]
  · simp [List.length_zipWith, hlen]
  · have := zipWith_append_rect f1 f2 w w h1 h2
    rwa [two_mul]
  · exact zipWith_append_map_take f1 f2 w h1 hlen
  · exact zipWith_append_map_drop f1 f2 w h1 hlen

theorem compose_correct_witness :
    ∃ g, hstack ([[(0, 0, 0)]] : Frame) ([[(1, 2, 3)]] : Frame) = Except.ok g ∧
      g.length = ([[((0 : Nat), (0 : Nat), (0 : Nat))]] : Frame).length ∧
      Rectangular g (2 * 1) ∧
      g.map (List.take 1) = ([[(0, 0, 0)]] : Frame) ∧
      g.map (List.drop 1) = ([[(1, 2, 3)]] : Frame) :=
  compose_correct [[(0, 0, 0)]] [[(1, 2, 3)]] 1 (by decide) (by decide) rfl

/-- C3 counterexample: two frames of the same height that differ in width
(1 versus 2) are NOT rejected — `np.hstack` succeeds and returns a frame of
width 3, contradicting the claim that compose fails with a dimension error
whenever the inputs differ in width or height. -/
theorem compose_width_mismatch_succeeds :
    hstack ([[(0, 0, 0)]] : Frame) ([[(1, 1, 1), (2, 2, 2)]] : Frame) =
      Except.ok [[(0, 0, 0), (1, 1, 1), (2, 2, 2)]] := rfl

/-- C3 amended: `compose` fails (numpy `ValueError`) exactly when the two
frames differ in HEIGHT; frames that differ only in width are concatenated
successfully into a frame of width `w1 + w2` with the input height. -/
theorem compose_fails_only_on_height (f1 f2 : Frame) (w1 w2 : Nat)
    (h1 : Rectangular f1 w1) (h2 : Rectangular f2 w2) :
    (f1.length ≠ f2.length → hstack f1 f2 = Except.error PyErr.valueError) ∧
    (f1.length = f2.length →
      ∃ g, hstack f1 f2 = Except.ok g ∧ g.length = f1.length ∧
        Rectangular g (w1 + w2)) := by
  constructor
  · intro hne
    simp [hstack, hne]
  · intro heq
    exact ⟨List.zipWith (fun a b => a ++ b) f1 f2, by simp [hstack, heq],
      by simp [List.length_zipWith, heq], zipWith_append_rect f1 f2 w1 w2 h1 h2⟩

theorem compose_fails_only_on_height_witness :
    hstack ([[(0, 0, 0)]] : Frame) ([] : Frame) = Except.error PyErr.valueError ∧
    (∃ g, hstack ([[(0, 0, 0)]] : Frame) ([[(1, 1, 1), (2, 2, 2)]] : Frame) =
      Except.ok g ∧ g.length = ([[((0 : Nat), (0 : Nat), (0 : Nat))]] : Frame).length ∧
      Rectangular g (1 + 2)) :=
  ⟨(compose_fails_only_on_height [[(0, 0, 0)]] [] 1 0 (by decide) (by decide)).1
      (by decide),
   (compose_fails_only_on_height [[(0, 0, 0)]] [[(1, 1, 1), (2, 2, 2)]] 1 2
      (by decide) (by decide)).2 rfl⟩

/-- C4 counterexample: from `Idle`, toggling with a sink that FAILS to open
(`opened := false`) still succeeds and moves the controller to `Recording`
holding that writer — no `SinkOpenError`, and the state does not remain
`Idle`, contradicting the claim. -/
theorem toggle_with_unopened_sink_records :
    toggle_recording { opened := false } initRecState =
      Except.ok { is_recording := true, out := some { opened := false },
                  opens := 1, closes := 0 } := rfl

/-- C4 amended: the `Idle → Recording` transition of `toggle_recording`
(lines 95–103) ALWAYS succeeds, regardless of whether the `cv2.VideoWriter`
opened: the code never consults the open status, raises no `SinkOpenError`,
sets the recording flag and retains the (possibly unopened) writer. -/
theorem toggle_idle_always_records (w : VideoWriter) (s : RecState)
    (h : s.is_recording = false) :
    toggle_recording w s =
      Except.ok { is_recording := true, out := some w,
                  opens := s.opens + 1, closes := s.closes } := by
  simp [toggle_recording, h]

theorem toggle_idle_always_records_witness :
    toggle_recording { opened := false } initRecState =
      Except.ok { is_recording := true, out := some { opened := false },
                  opens := initRecState.opens + 1, closes := initRecState.closes } :=
  toggle_idle_always_records { opened := false } initRecState rfl

/-- C5 counterexample: when camera initialization fails before the loop
starts, the process exit status is 0, not non-zero — `main` catches the
exception, prints and returns, and the `__main__` guard never calls
`sys.exit`. -/
theorem exit_code_zero_on_init_failure :
    ¬ mainExitCode false ≠ 0 := by decide

/-- C5 amended: the process exits with status 0 on every modelled path —
both on clean shutdown (including user-initiated quit) AND when camera
initialization fails before the loop starts (the failure is only printed). -/
theorem exit_code_always_zero (camera_init_ok : Bool) :
    mainExitCode camera_init_ok = 0 := by
  cases camera_init_ok <;> rfl

/-- C6: starting from `Idle`, applying `toggle_recording` twice returns the
controller to `Idle` (flag down, no writer held), and across the pair
exactly one sink is opened and exactly one sink is closed. -/
theorem toggle_twice_round_trip (w1 w2 : VideoWriter) (s : RecState)
    (h : s.is_recording = false) :
    ∃ s1 s2, toggle_recording w1 s = Except.ok s1 ∧
      toggle_recording w2 s1 = Except.ok s2 ∧
      s2.is_recording = false ∧ s2.out = none ∧
      s2.opens = s.opens + 1 ∧ s2.closes = s.closes + 1 := by
  refine ⟨{ is_recording := true, out := some w1,
            opens := s.opens + 1, closes := s.closes },
          { is_recording := false, out := none,
            opens := s.opens + 1, closes := s.closes + 1 }, ?_, ?_, rfl, rfl, rfl, rfl⟩
  · simp [toggle_recording, h]
  · simp [toggle_recording]

theorem toggle_twice_round_trip_witness :
    ∃ s1 s2, toggle_recording { opened := true } initRecState = Except.ok s1 ∧
      toggle_recording { opened := true } s1 = Except.ok s2 ∧
      s2.is_recording = false ∧ s2.out = none ∧
      s2.opens = initRecState.opens + 1 ∧ s2.closes = initRecState.closes + 1 :=
  toggle_twice_round_trip { opened := true } { opened := true } initRecState rfl

/-- C7 counterexample: camera 1 opens, camera 2 fails. The exception
propagates out of `StereoCamera.__init__`, yet `camera1` is still held and
still started — the already-opened device is NOT released, contradicting
the no-partial-leak claim. -/
theorem init_partial_leak :
    stereoCamera_new true false =
      ({ camera1 := some { started := true }, camera2 := none },
        some PyErr.cameraInit) := rfl

/-- C7 amended: if the second camera fails to open or configure during
`init_cameras`, the exception propagates (printed and re-raised by
`__init__`), but the already-opened first camera is NOT released: its
handle remains held and started. -/
theorem init_failure_no_release (c1 c2 : Bool)
    (h1 : c1 = true) (h2 : c2 = false) :
    (stereoCamera_new c1 c2).2 = some PyErr.cameraInit ∧
    (stereoCamera_new c1 c2).1.camera1 = some { started := true } ∧
    (stereoCamera_new c1 c2).1.camera2 = none := by
  subst h1; subst h2; exact ⟨rfl, rfl, rfl⟩

theorem init_failure_no_release_witness :
    (stereoCamera_new true false).2 = some PyErr.cameraInit ∧
    (stereoCamera_new true false).1.camera1 = some { started := true } ∧
    (stereoCamera_new true false).1.camera2 = none :=
  init_failure_no_release true false rfl rfl

/-- C8 counterexample: on a fully-initialized `StereoCamera` that has been
`close()`d, `capture_stereo` does NOT raise — `close` only stops the
cameras, it never resets the fields to `None`, so the guard passes and the
call returns a frame pair, contradicting the fails-after-close claim. -/
theorem capture_after_close_succeeds :
    capture_stereo ([[(0, 0, 0)]] : Frame) ([[(0, 0, 0)]] : Frame)
      (close (stereoCamera_new true true).1) =
      Except.ok ([[(0, 0, 0)]], [[(0, 0, 0)]]) := rfl

/-- C8 amended: `capture_stereo` raises `RuntimeError` exactly when one of
the camera fields was never successfully assigned (is `None`) — i.e. before
`open()` succeeded; and `close()` does not change its behaviour at all (the
guard never fires merely because the cameras were stopped). -/
theorem capture_guard_only_none (f1 f2 : Frame) (s : CamPair) :
    (capture_stereo f1 f2 s = Except.error PyErr.runtimeError ↔
      (s.camera1.isNone || s.camera2.isNone) = true) ∧
    capture_stereo f1 f2 (close s) = capture_stereo f1 f2 s := by
  constructor
  · by_cases hc : (s.camera1.isNone || s.camera2.isNone) = true
    · simp [capture_stereo, hc]
    · simp [capture_stereo, hc]
  · cases h1 : s.camera1 <;> cases h2 : s.camera2 <;>
      simp [capture_stereo, close, h1, h2]

/-- C9: the recording flag equals possession of a writer object, at
initialization (lines 142–143) and after every successfully completed
`toggle_recording` call, so the loop guard never sees a half-open session
at these points. -/
theorem recording_sink_invariant :
    RecInv initRecState ∧
    ∀ (w : VideoWriter) (s s2 : RecState), RecInv s →
      toggle_recording w s = Except.ok s2 → RecInv s2 := by
  refine ⟨rfl, ?_⟩
  intro w s s2 h ht
  by_cases hr : s.is_recording = false
  · simp [toggle_recording, hr] at ht
    rw [← ht]
    rfl
  · have hr2 : s.is_recording = true := by
      revert hr; cases s.is_recording <;> simp
    have hsome : s.out.isSome = true := by
      rw [RecInv] at h; rw [← h]; exact hr2
    obtain ⟨x, hx⟩ := Option.isSome_iff_exists.mp hsome
    simp [toggle_recording, hr2, hx] at ht
    rw [← ht]
    rfl

theorem recording_sink_invariant_witness :
    RecInv { is_recording := true, out := some { opened := true },
             opens := 1, closes := 0 } :=
  recording_sink_invariant.2 { opened := true } initRecState
    { is_recording := true, out := some { opened := true }, opens := 1, closes := 0 }
    rfl rfl

theorem toggle_ok_of_inv (w : VideoWriter) (s : RecState) (h : RecInv s) :
    ∃ s2, toggle_recording w s = Except.ok s2 := by
  by_cases hr : s.is_recording = false
  · exact ⟨{ is_recording := true, out := some w,
             opens := s.opens + 1, closes := s.closes },
           by simp [toggle_recording, hr]⟩
  · have hr2 : s.is_recording = true := by
      revert hr; cases s.is_recording <;> simp
    have hsome : s.out.isSome = true := by
      rw [RecInv] at h; rw [← h]; exact hr2
    obtain ⟨x, hx⟩ := Option.isSome_iff_exists.mp hsome
    exact ⟨{ is_recording := false, out := none,
             opens := s.opens, closes := s.closes + 1 },
           by simp [toggle_recording, hr2, hx]⟩

/-- C10: the keyboard handler lowercases the key first and is total: it
toggles recording exactly on (lowercased) `r`, sets the stop flag exactly
on (lowercased) `q`, and leaves the whole control state unchanged on every
other character. (The hypothesis is the C9 coupling of the recording
globals, under which the toggle always completes.) -/
theorem keyboard_total_case_insensitive (w : VideoWriter) (c : Char)
    (st : CtlState) (h : RecInv st.rstate) :
    ∃ st2, handle_key w c st = Except.ok st2 ∧
      (pyLower c = 'r' →
        toggle_recording w st.rstate = Except.ok st2.rstate ∧ st2.stop = st.stop) ∧
      (pyLower c = 'q' → st2.rstate = st.rstate ∧ st2.stop = true) ∧
      (pyLower c ≠ 'r' → pyLower c ≠ 'q' → st2 = st) := by
  by_cases hr : pyLower c = 'r'
  · obtain ⟨s2, hs2⟩ := toggle_ok_of_inv w st.rstate h
    refine ⟨{ st with rstate := s2 }, ?_, ?_, ?_, ?_⟩
    · simp [handle_key, hr, hs2]
    · exact fun _ => ⟨by simp [hs2], rfl⟩
    · intro hq; exact absurd (hr.symm.trans hq) (by decide)
    · intro hnr _; exact absurd hr hnr
  · by_cases hq : pyLower c = 'q'
    · refine ⟨{ st with stop := true }, ?_, ?_, ?_, ?_⟩
      · simp [handle_key, hr, hq]
      · intro hrc; exact absurd hrc hr
      · exact fun _ => ⟨rfl, rfl⟩
      · intro _ hnq; exact absurd hq hnq
    · refine ⟨st, ?_, ?_, ?_, ?_⟩
      · simp [handle_key, hr, hq]
      · intro hrc; exact absurd hrc hr
      · intro hqc; exact absurd hqc hq
      · intro _ _; rfl

theorem keyboard_total_case_insensitive_witness :
    ∃ st2, handle_key { opened := true } 'R'
        { rstate := initRecState, stop := false } = Except.ok st2 ∧
      (pyLower 'R' = 'r' →
        toggle_recording { opened := true } initRecState = Except.ok st2.rstate ∧
        st2.stop = false) ∧
      (pyLower 'R' = 'q' → st2.rstate = initRecState ∧ st2.stop = true) ∧
      (pyLower 'R' ≠ 'r' → pyLower 'R' ≠ 'q' →
        st2 = { rstate := initRecState, stop := false }) :=
  keyboard_total_case_insensitive { opened := true } 'R'
    { rstate := initRecState, stop := false } rfl

/-- Concrete camera half-frame for the annotation counterexample: 41 rows of
31 black pixels, so that the 41×62 stitched frame contains the modelled
marker position (row 40, column 60). -/
def cexHalf : Frame := List.replicate 41 (List.replicate 31 (0, 0, 0))

/-- The stitched 41×62 black frame `hstack cexHalf cexHalf` yields. -/
def cexStitched : Frame := List.replicate 41 (List.replicate 62 (0, 0, 0))

/-- C1 counterexample: with recording active, the frame handed to the
recording sink is the UNANNOTATED stitched frame (its marker position is
still black), while the frame handed to the display sink carries the
marker — the annotation happens after the recording write (line 163) and
before the display write (line 170), so the two sinks do not observe the
same annotated buffer. -/
theorem loop_annotation_after_record_cex :
    loop_iter true (some { opened := true }) cexHalf cexHalf =
      Except.ok (some cexStitched, cvtColor_RGB2BGR (putTextREC cexStitched)) ∧
    pixelAt cexStitched 40 60 = some (0, 0, 0) ∧
    pixelAt (cvtColor_RGB2BGR (putTextREC cexStitched)) 40 60 = some (255, 0, 0) :=
  ⟨rfl, rfl, rfl⟩

/-- C1 amended: in a recording iteration the sinks consume DIFFERENT
buffers: the recording sink receives the colour-converted stitched frame
from BEFORE the annotation, and only the display sink receives the
annotated frame. -/
theorem loop_records_unannotated_frame (b : Bool) (w : VideoWriter)
    (f1 f2 st : Frame) (hb : b = true) (hst : hstack f1 f2 = Except.ok st) :
    loop_iter b (some w) f1 f2 =
      Except.ok (some (cvtColor_RGB2BGR st),
        cvtColor_RGB2BGR (putTextREC st)) := by
  subst hb
  unfold loop_iter
  rw [hst]
  simp

theorem loop_records_unannotated_frame_witness :
    loop_iter true (some { opened := true })
        ([[(0, 0, 0)]] : Frame) ([[(0, 0, 0)]] : Frame) =
      Except.ok (some (cvtColor_RGB2BGR [[(0, 0, 0), (0, 0, 0)]]),
        cvtColor_RGB2BGR (putTextREC [[(0, 0, 0), (0, 0, 0)]])) :=
  loop_records_unannotated_frame true { opened := true }
    [[(0, 0, 0)]] [[(0, 0, 0)]] [[(0, 0, 0), (0, 0, 0)]] rfl rfl

end StereoApp
